import Mathlib

/-!
Formal model of the webcam-light camera monitor (webcam_light.py).

The program watches a stream of log lines for camera on/off transitions,
debounces them, evaluates environment conditions (home network, external
monitor, the latter behind a TTL cache) and posts a webhook notification.

Modelling conventions:
 - Python strings are represented as List Char; substring tests use the
   library infix/prefix relations.
 - Wall-clock times (time.time) are rationals; each call of time.time is a
   separate oracle input.
 - Library/external effects (subprocess.run, the re engine, urllib) are
   oracle inputs: a command either fails (SubprocessError / TimeoutExpired)
   or yields the data the source extracts from its output; the HTTP POST
   either fails (URLError / HTTPError / OSError) or yields a status code.
 - Python dicts are insertion-ordered association lists; dictInsert has
   the update-in-place-or-append semantics of dict assignment/splat.
 - Logging calls are side effects with no influence on data flow and are
   not modelled.
-/

namespace WebcamLight

/-- Outcome of a subprocess.run call: err covers SubprocessError and
TimeoutExpired; ok carries what the source extracts from stdout. -/
inductive CmdResult (α : Type) where
  | ok (out : α)
  | err
  deriving DecidableEq

/-- Outcome of urllib.request.urlopen: failure covers URLError, HTTPError
and OSError; response carries the HTTP status code. -/
inductive HttpOutcome where
  | response (status : Nat)
  | failure
  deriving DecidableEq

/-- Values appearing in the notification payload / metadata dict. -/
inductive PyVal where
  | s (v : String)
  | b (v : Bool)
  | strs (v : List (List Char))
  deriving DecidableEq

/-- Config dataclass (webcam_light.py lines 19-26). home_ip_pre is the
home_ip_prefix field. -/
structure Config where
  webhook_url : String
  home_ip_pre : List Char
  require_home_network : Bool
  require_external_monitor : Bool
  debounce_seconds : ℚ
  displays_cache_ttl_seconds : ℤ

/-- The mutable fields of SystemInfo: _display_cache and _cache_timestamp
(lines 32-33). -/
structure SystemInfoState where
  display_cache : Option Bool
  cache_timestamp : ℚ
  deriving DecidableEq

/-- Python str.strip(): drop whitespace from both ends. -/
def pyStrip (l : List Char) : List Char :=
  ((l.dropWhile Char.isWhitespace).reverse.dropWhile Char.isWhitespace).reverse

/-- Python str.lower(). -/
def pyLower (l : List Char) : List Char := l.map Char.toLower

/-- SystemInfo.get_active_ipv4_addresses (lines 35-56). The ifconfig
subprocess yields stdout lines; search models re.search of the inet
regex on one line, returning the captured address if any. The source
collects each captured address whose text does not start with "127.". -/
def get_active_ipv4_addresses (cmd : CmdResult (List (List Char)))
    (search : List Char → Option (List Char)) : List (List Char) :=
  match cmd with
  | .err => []
  | .ok lines =>
    (lines.filterMap search).filter (fun ip => !(List.isPrefixOf "127.".toList ip))

/-- SystemInfo.is_on_home_network (lines 58-61). -/
def is_on_home_network (cfg : Config) (cmd : CmdResult (List (List Char)))
    (search : List Char → Option (List Char)) : Bool × List (List Char) :=
  let ips := get_active_ipv4_addresses cmd search
  (ips.any (fun ip => List.isPrefixOf cfg.home_ip_pre ip), ips)

/-- SystemInfo._detect_external_monitor (lines 63-86). On success the
system_profiler output is summarised by what the two regexes extract:
the captured groups of the Connection Type pattern, and the number of
display-header matches. Each captured group is stripped, lowercased and
compared with "internal"; the fallback tests for at least two headers. -/
def detect_external_monitor (q : CmdResult (List (List Char) × Nat)) : Bool :=
  match q with
  | .err => false
  | .ok (connTypes, headerCount) =>
    if connTypes.any (fun t => !(pyLower (pyStrip t) == "internal".toList)) then
      true
    else
      decide (2 ≤ headerCount)

/-- SystemInfo.has_external_monitor (lines 88-99): TTL cache around
_detect_external_monitor. now is the time.time() sample of this call; q
the probe oracle used only if the cache is invalid. Returns the value
returned to the caller and the updated cache fields. -/
def has_external_monitor (cfg : Config) (st : SystemInfoState) (now : ℚ)
    (q : CmdResult (List (List Char) × Nat)) : Bool × SystemInfoState :=
  let cache_valid := st.display_cache.isSome
      && decide (now - st.cache_timestamp < (cfg.displays_cache_ttl_seconds : ℚ))
  if cache_valid then
    (st.display_cache.getD false, st)
  else
    let fresh := detect_external_monitor q
    (fresh, { display_cache := some fresh, cache_timestamp := now })

/-- Python dict assignment semantics on an insertion-ordered association
list: overwrite the value at an existing key in place, else append. -/
def dictInsert {α : Type} (d : List (String × α)) (k : String) (v : α) :
    List (String × α) :=
  match d with
  | [] => [(k, v)]
  | (k2, v2) :: rest =>
    if k2 = k then (k2, v) :: rest else (k2, v2) :: dictInsert rest k v

/-- Keys of a dict, in insertion order. -/
def dictKeys {α : Type} (d : List (String × α)) : List String := d.map Prod.fst

/-- Dict lookup: the value stored at the first (hence unique) occurrence
of the key. -/
def dictLookup {α : Type} (d : List (String × α)) (k : String) : Option α :=
  match d with
  | [] => none
  | (k2, v) :: rest => if k2 = k then some v else dictLookup rest k

/-- The payload built at line 108: the dict display starts with the
entry ("state", state) and then splats every metadata entry over it. -/
def build_payload {α : Type} (state : α) (metadata : List (String × α)) :
    List (String × α) :=
  metadata.foldl (fun d kv => dictInsert d kv.1 kv.2) [("state", state)]

/-- WebhookNotifier.send_notification (lines 107-129). transport is the
urlopen outcome for the POSTed payload. Returns the boolean result and
the payload that was serialised and sent. -/
def send_notification (state : String) (metadata : List (String × PyVal))
    (transport : HttpOutcome) : Bool × List (String × PyVal) :=
  let payload := build_payload (PyVal.s state) metadata
  match transport with
  | .failure => (false, payload)
  | .response status =>
    if 200 ≤ status ∧ status < 300 then (true, payload) else (false, payload)

/-- The mutable fields of CameraMonitor: _last_state and _last_sent
(lines 136-137). -/
structure MonitorRuntimeState where
  last_state : Option String
  last_sent : ℚ
  deriving DecidableEq

/-- All mutable state owned by the monitor: its own runtime fields plus
the SystemInfo cache. -/
structure MonitorState where
  runtime : MonitorRuntimeState
  sysinfo : SystemInfoState
  deriving DecidableEq

/-- CameraMonitor._parse_camera_state (lines 164-169). -/
def parse_camera_state (log_line : List Char) : Option String :=
  if "running -> 1".toList <:+: log_line then some "on"
  else if "running -> 0".toList <:+: log_line then some "off"
  else none

/-- CameraMonitor._should_debounce (lines 157-162); now is this call's
time.time() sample. -/
def should_debounce (cfg : Config) (rt : MonitorRuntimeState) (state : String)
    (now : ℚ) : Bool :=
  (some state == rt.last_state)
    && decide (now - rt.last_sent < cfg.debounce_seconds)

/-- CameraMonitor._conditions_met (lines 139-155). Reads the two probes
(mutating the display cache) and builds the conditions flag and the
metadata dict. -/
def conditions_met (cfg : Config) (st : SystemInfoState)
    (ifconfig : CmdResult (List (List Char)))
    (search : List Char → Option (List Char))
    (now_cache : ℚ) (displays : CmdResult (List (List Char) × Nat)) :
    Bool × List (String × PyVal) × SystemInfoState :=
  let probe := is_on_home_network cfg ifconfig search
  let is_home := probe.1
  let ips := probe.2
  let disp := has_external_monitor cfg st now_cache displays
  let has_external := disp.1
  let conditions_ok := true
  let conditions_ok :=
    if cfg.require_home_network then conditions_ok && is_home else conditions_ok
  let conditions_ok :=
    if cfg.require_external_monitor then conditions_ok && has_external
    else conditions_ok
  let metadata : List (String × PyVal) :=
    [("home_network", PyVal.b is_home),
     ("ip_addresses", PyVal.strs ips),
     ("external_monitor", PyVal.b has_external)]
  (conditions_ok, metadata, disp.2)

/-- The oracle inputs consumed while the loop body in CameraMonitor.run
processes one log line: the time.time() samples in program order, the
subprocess/regex outcomes of the two probes, and the HTTP outcome. -/
structure LineOracle where
  t_debounce : ℚ
  ifconfig : CmdResult (List (List Char))
  inet_search : List Char → Option (List Char)
  t_cache : ℚ
  displays : CmdResult (List (List Char) × Nat)
  transport : HttpOutcome
  t_update : ℚ

/-- Record of an invocation of send_notification. -/
structure SendCall where
  state : String
  metadata : List (String × PyVal)
  ok : Bool
  deriving DecidableEq

/-- One iteration of the for-line loop of CameraMonitor.run
(lines 196-215): skip filter messages, parse, debounce, evaluate
conditions, optionally notify, update runtime state. Returns the new
monitor state and the notification call, if one was made. -/
def process_line (cfg : Config) (st : MonitorState) (line : List Char)
    (o : LineOracle) : MonitorState × Option SendCall :=
  if "Filtering the log data using".toList <:+: line then (st, none)
  else
    match parse_camera_state line with
    | none => (st, none)
    | some state =>
      if should_debounce cfg st.runtime state o.t_debounce then (st, none)
      else
        let cm := conditions_met cfg st.sysinfo o.ifconfig o.inet_search
          o.t_cache o.displays
        let conditions_ok := cm.1
        let metadata := cm.2.1
        let call :=
          if conditions_ok && (state == "on" || state == "off") then
            some { state := state, metadata := metadata,
                   ok := (send_notification state metadata o.transport).1 }
          else none
        ({ runtime := { last_state := some state, last_sent := o.t_update },
           sysinfo := cm.2.2 }, call)

/-- C1: parsing a log line yields On iff the line contains the substring
"running -> 1", yields Off iff it contains "running -> 0" and not
"running -> 1", and yields no event otherwise; a line containing both
substrings yields On because that test comes first. -/
theorem parse_c1 (line : List Char) :
    (parse_camera_state line = some "on" ↔ "running -> 1".toList <:+: line) ∧
    (parse_camera_state line = some "off" ↔
      ("running -> 0".toList <:+: line ∧ ¬ "running -> 1".toList <:+: line)) ∧
    (parse_camera_state line = none ↔
      (¬ "running -> 1".toList <:+: line ∧ ¬ "running -> 0".toList <:+: line)) := by
  by_cases h1 : "running -> 1".toList <:+: line <;>
    by_cases h0 : "running -> 0".toList <:+: line <;>
      simp_all [parse_camera_state]

/-- C2: an event with state s is debounced iff s equals the recorded last
state and the elapsed time since the last notification attempt is below
the debounce duration; an event of a different state is never debounced;
and a debounced event leaves the monitor state untouched and produces no
notification. -/
theorem debounce_c2 (cfg : Config) (st : MonitorState) (line : List Char)
    (s : String) (o : LineOracle) :
    (should_debounce cfg st.runtime s o.t_debounce = true ↔
      (st.runtime.last_state = some s ∧
        o.t_debounce - st.runtime.last_sent < cfg.debounce_seconds)) ∧
    (st.runtime.last_state ≠ some s →
      should_debounce cfg st.runtime s o.t_debounce = false) ∧
    (¬ "Filtering the log data using".toList <:+: line →
      parse_camera_state line = some s →
      should_debounce cfg st.runtime s o.t_debounce = true →
      process_line cfg st line o = (st, none)) := by
  refine ⟨?_, ?_, ?_⟩
  · simp only [should_debounce, Bool.and_eq_true, beq_iff_eq, decide_eq_true_eq]
    exact ⟨fun h => ⟨h.1.symm, h.2⟩, fun h => ⟨h.1.symm, h.2⟩⟩
  · intro h
    cases hb : (some s == st.runtime.last_state) with
    | false => simp [should_debounce, hb]
    | true =>
      rw [beq_iff_eq] at hb
      exact absurd hb.symm h
  · intro hf hp hd
    simp at hf
    simp [process_line, hf, hp, hd]

theorem debounce_c2_witness :
    process_line ⟨"u", "192.168.137.".toList, true, true, 5, 15⟩
      ⟨⟨some "on", 0⟩, ⟨none, 0⟩⟩
      "AVCaptureSession running -> 1".toList
      ⟨1, CmdResult.err, fun _ => none, 1, CmdResult.err, HttpOutcome.failure, 1⟩ =
    (⟨⟨some "on", 0⟩, ⟨none, 0⟩⟩, none) :=
  (debounce_c2 ⟨"u", "192.168.137.".toList, true, true, 5, 15⟩
      ⟨⟨some "on", 0⟩, ⟨none, 0⟩⟩
      "AVCaptureSession running -> 1".toList "on"
      ⟨1, CmdResult.err, fun _ => none, 1, CmdResult.err, HttpOutcome.failure, 1⟩).2.2
    (by decide) (by decide) (by norm_num [should_debounce])

/-- C3: after a non-debounced event with state s, the runtime state is set
to last_state = s and last_sent = the time sampled at the update, and the
new monitor state does not depend on the HTTP outcome of the
notification attempt. -/
theorem state_update_c3 (cfg : Config) (st : MonitorState) (line : List Char)
    (s : String) (o : LineOracle) :
    ¬ "Filtering the log data using".toList <:+: line →
    parse_camera_state line = some s →
    should_debounce cfg st.runtime s o.t_debounce = false →
    ((process_line cfg st line o).1.runtime =
        { last_state := some s, last_sent := o.t_update } ∧
     ∀ t, (process_line cfg st line { o with transport := t }).1 =
        (process_line cfg st line o).1) := by
  intro hf hp hd
  simp at hf
  constructor
  · simp [process_line, hf, hp, hd]
  · intro t
    simp [process_line, hf, hp, hd]

theorem state_update_c3_witness :
    (process_line ⟨"u", "192.168.137.".toList, true, true, 5, 15⟩
      ⟨⟨some "on", 0⟩, ⟨none, 0⟩⟩
      "AVCaptureSession running -> 0".toList
      ⟨1, CmdResult.err, fun _ => none, 1, CmdResult.err, HttpOutcome.failure, 2⟩).1.runtime =
    { last_state := some "off", last_sent := 2 } :=
  ((state_update_c3 ⟨"u", "192.168.137.".toList, true, true, 5, 15⟩
      ⟨⟨some "on", 0⟩, ⟨none, 0⟩⟩
      "AVCaptureSession running -> 0".toList "off"
      ⟨1, CmdResult.err, fun _ => none, 1, CmdResult.err, HttpOutcome.failure, 2⟩)
    (by decide) (by decide) (by simp [should_debounce])).1

/-- C4: has_external_monitor re-probes and overwrites both cache fields
exactly when no value was captured yet or the elapsed time since the
capture reaches the TTL; otherwise it returns the cached value and
leaves the cache unchanged, so a second call within the TTL returns the
identical value with no influence from its own probe oracle. -/
theorem display_cache_c4 (cfg : Config) (st : SystemInfoState) (now : ℚ)
    (q : CmdResult (List (List Char) × Nat)) :
    ((st.display_cache = none ∨
        (cfg.displays_cache_ttl_seconds : ℚ) ≤ now - st.cache_timestamp) →
      has_external_monitor cfg st now q =
        (detect_external_monitor q,
         { display_cache := some (detect_external_monitor q),
           cache_timestamp := now })) ∧
    (∀ v, st.display_cache = some v →
      now - st.cache_timestamp < (cfg.displays_cache_ttl_seconds : ℚ) →
      has_external_monitor cfg st now q = (v, st)) ∧
    (∀ now2 q2, now2 - now < (cfg.displays_cache_ttl_seconds : ℚ) →
      has_external_monitor cfg
        { display_cache := some (detect_external_monitor q),
          cache_timestamp := now } now2 q2 =
        (detect_external_monitor q,
         { display_cache := some (detect_external_monitor q),
           cache_timestamp := now })) := by
  refine ⟨?_, ?_, ?_⟩
  · rintro (h | h)
    · simp [has_external_monitor, h]
    · simp [has_external_monitor, not_lt.mpr h]
  · intro v hv hlt
    simp [has_external_monitor, hv, hlt]
  · intro now2 q2 hlt
    simp [has_external_monitor, hlt]

theorem display_cache_c4_witness :
    has_external_monitor ⟨"u", "192.168.137.".toList, true, true, 5, 15⟩
      ⟨some true, 0⟩ 10 CmdResult.err = (true, ⟨some true, 0⟩) :=
  (display_cache_c4 ⟨"u", "192.168.137.".toList, true, true, 5, 15⟩
      ⟨some true, 0⟩ 10 CmdResult.err).2.1 true rfl (by norm_num)

/-- Helper: a successfully parsed state is the string "on" or "off". -/
theorem parse_state_values (line : List Char) (s : String)
    (h : parse_camera_state line = some s) : s = "on" ∨ s = "off" := by
  unfold parse_camera_state at h
  split at h
  · exact Or.inl (Option.some.injEq .. ▸ h.symm ▸ rfl)
  · split at h
    · exact Or.inr (Option.some.injEq .. ▸ h.symm ▸ rfl)
    · exact absurd h (by simp)

/-- C5: conditions_ok is the conjunction of the enabled gates only (home
network when require_home_network, external display when
require_external_monitor); the metadata dict always carries home_network,
ip_addresses and external_monitor; and for a non-debounced event the
notifier is invoked exactly when conditions_ok holds, with that full
metadata. -/
theorem gates_c5 (cfg : Config) (st : MonitorState) (line : List Char)
    (s : String) (o : LineOracle) :
    ((conditions_met cfg st.sysinfo o.ifconfig o.inet_search o.t_cache o.displays).1 =
      ((!cfg.require_home_network
          || (is_on_home_network cfg o.ifconfig o.inet_search).1)
        && (!cfg.require_external_monitor
          || (has_external_monitor cfg st.sysinfo o.t_cache o.displays).1))) ∧
    ((conditions_met cfg st.sysinfo o.ifconfig o.inet_search o.t_cache o.displays).2.1 =
      [("home_network", PyVal.b (is_on_home_network cfg o.ifconfig o.inet_search).1),
       ("ip_addresses", PyVal.strs (is_on_home_network cfg o.ifconfig o.inet_search).2),
       ("external_monitor",
        PyVal.b (has_external_monitor cfg st.sysinfo o.t_cache o.displays).1)]) ∧
    (¬ "Filtering the log data using".toList <:+: line →
      parse_camera_state line = some s →
      should_debounce cfg st.runtime s o.t_debounce = false →
      ((process_line cfg st line o).2.isSome =
        (conditions_met cfg st.sysinfo o.ifconfig o.inet_search o.t_cache o.displays).1 ∧
       ∀ c, (process_line cfg st line o).2 = some c →
         c.metadata =
           (conditions_met cfg st.sysinfo o.ifconfig o.inet_search o.t_cache o.displays).2.1)) := by
  refine ⟨?_, ?_, ?_⟩
  · cases hrh : cfg.require_home_network <;>
      cases hre : cfg.require_external_monitor <;>
        simp [conditions_met, hrh, hre]
  · simp [conditions_met]
  · intro hf hp hd
    simp at hf
    have hs := parse_state_values line s hp
    have hso : (s == "on" || s == "off") = true := by
      rcases hs with h | h <;> simp [h]
    constructor
    · cases hok : (conditions_met cfg st.sysinfo o.ifconfig o.inet_search
        o.t_cache o.displays).1 <;>
        simp [process_line, hf, hp, hd, hok, hso]
    · intro c hc
      cases hok : (conditions_met cfg st.sysinfo o.ifconfig o.inet_search
        o.t_cache o.displays).1 <;>
        simp [process_line, hf, hp, hd, hok, hso] at hc
      · rw [← hc]

theorem gates_c5_witness :
    ((process_line ⟨"u", "192.168.137.".toList, true, true, 5, 15⟩
      ⟨⟨none, 0⟩, ⟨none, 0⟩⟩
      "AVCaptureSession running -> 1".toList
      ⟨100, CmdResult.err, fun _ => none, 100, CmdResult.err,
        HttpOutcome.failure, 100⟩).2.isSome =
    (conditions_met ⟨"u", "192.168.137.".toList, true, true, 5, 15⟩
      ⟨none, 0⟩ CmdResult.err (fun _ => none) 100 CmdResult.err).1) :=
  ((gates_c5 ⟨"u", "192.168.137.".toList, true, true, 5, 15⟩
      ⟨⟨none, 0⟩, ⟨none, 0⟩⟩
      "AVCaptureSession running -> 1".toList "on"
      ⟨100, CmdResult.err, fun _ => none, 100, CmdResult.err,
        HttpOutcome.failure, 100⟩).2.2
    (by decide) (by decide) (by simp [should_debounce])).1

/-- C6: the notifier reports success exactly when the HTTP response
status lies in the interval from 200 inclusive to 300 exclusive; every
transport failure yields false, and the function is total, so no
exception reaches the caller. -/
theorem notifier_c6 (state : String) (metadata : List (String × PyVal))
    (t : HttpOutcome) :
    (send_notification state metadata t).1 = true ↔
      ∃ code, t = HttpOutcome.response code ∧ 200 ≤ code ∧ code < 300 := by
  cases t with
  | failure => simp [send_notification]
  | response code =>
    by_cases h : 200 ≤ code ∧ code < 300 <;>
      simp [send_notification, h]

/-- Helper: the Boolean startswith agrees with the prefix relation. -/
theorem isPrefixOf_eq_true_iff (l₁ l₂ : List Char) :
    List.isPrefixOf l₁ l₂ = true ↔ l₁ <+: l₂ := by
  induction l₁ generalizing l₂ with
  | nil => simp [List.isPrefixOf]
  | cons a t ih =>
    cases l₂ with
    | nil => simp [List.isPrefixOf]
    | cons b t2 => simp [List.isPrefixOf, ih, List.cons_prefix_cons]

/-- C7: is_on_home_network reports true exactly when some address of the
returned list starts with the configured home prefix, and no returned
address starts with "127.". -/
theorem home_network_c7 (cfg : Config) (cmd : CmdResult (List (List Char)))
    (search : List Char → Option (List Char)) :
    ((is_on_home_network cfg cmd search).1 = true ↔
      ∃ ip, ip ∈ (is_on_home_network cfg cmd search).2 ∧
        cfg.home_ip_pre <+: ip) ∧
    (∀ ip, ip ∈ (is_on_home_network cfg cmd search).2 →
      ¬ ("127.".toList <+: ip)) := by
  constructor
  · simp [is_on_home_network, List.any_eq_true]
  · intro ip hip
    cases cmd with
    | err => simp [is_on_home_network, get_active_ipv4_addresses] at hip
    | ok lines =>
      simp [is_on_home_network, get_active_ipv4_addresses,
        List.mem_filter] at hip
      intro hc
      rw [← isPrefixOf_eq_true_iff] at hc
      simp [hip.2] at hc

theorem home_network_c7_witness :
    ¬ ("127.".toList <+: "192.168.137.5".toList) :=
  (home_network_c7 ⟨"u", "192.168.137.".toList, true, true, 5, 15⟩
      (CmdResult.ok ["inet 192.168.137.5 netmask".toList])
      (fun l => if l == "inet 192.168.137.5 netmask".toList
        then some "192.168.137.5".toList else none)).2
    "192.168.137.5".toList (by decide)

/-- C8: on subprocess failure or timeout, the address probe returns the
empty list and the display detection returns false; both model functions
are total, so nothing is raised to the caller. -/
theorem fail_closed_c8 (cfg : Config)
    (search : List Char → Option (List Char)) :
    get_active_ipv4_addresses CmdResult.err search = [] ∧
    (is_on_home_network cfg CmdResult.err search).2 = [] ∧
    detect_external_monitor CmdResult.err = false :=
  ⟨rfl, rfl, rfl⟩

/-- C9: the display detection returns true whenever some captured
connection type normalises (strip and lowercase) to something other than
"internal"; when every captured type is internal it falls back to the
display-header count and returns true exactly when that count is at
least two. -/
theorem display_policy_c9 (types : List (List Char)) (count : Nat) :
    ((∃ t, t ∈ types ∧ pyLower (pyStrip t) ≠ "internal".toList) →
      detect_external_monitor (CmdResult.ok (types, count)) = true) ∧
    ((∀ t, t ∈ types → pyLower (pyStrip t) = "internal".toList) →
      (detect_external_monitor (CmdResult.ok (types, count)) = true ↔
        2 ≤ count)) := by
  constructor
  · rintro ⟨t, ht, hne⟩
    have hany : types.any
        (fun t => !(pyLower (pyStrip t) == "internal".toList)) = true :=
      List.any_eq_true.mpr ⟨t, ht, by simpa using hne⟩
    simp only [detect_external_monitor, hany, if_true]
  · intro hall
    have hany : types.any
        (fun t => !(pyLower (pyStrip t) == "internal".toList)) = false := by
      rw [List.any_eq_false]
      intro t ht
      simp [hall t ht]
    simp only [detect_external_monitor, hany, Bool.false_eq_true, if_false,
      decide_eq_true_eq]

theorem display_policy_c9_witness :
    detect_external_monitor
      (CmdResult.ok (["Internal".toList, " DisplayPort ".toList], 1)) = true :=
  (display_policy_c9 ["Internal".toList, " DisplayPort ".toList] 1).1
    ⟨" DisplayPort ".toList, by decide, by decide⟩

/-- Helper: inserting a key adds exactly that key to the key set. -/
theorem dictKeys_dictInsert {α : Type} (d : List (String × α)) (k0 k : String)
    (v : α) :
    (k ∈ dictKeys (dictInsert d k0 v) ↔ k = k0 ∨ k ∈ dictKeys d) := by
  induction d with
  | nil => simp [dictInsert, dictKeys]
  | cons hd tl ih =>
    obtain ⟨k2, v2⟩ := hd
    by_cases h : k2 = k0
    · subst h
      simp [dictInsert, dictKeys]
    · simp [dictInsert, dictKeys, h] at ih ⊢
      tauto

/-- Helper: lookup after inserting the same key yields the new value. -/
theorem dictLookup_dictInsert_self {α : Type} (d : List (String × α))
    (k : String) (v : α) :
    dictLookup (dictInsert d k v) k = some v := by
  induction d with
  | nil => simp [dictInsert, dictLookup]
  | cons hd tl ih =>
    obtain ⟨k2, v2⟩ := hd
    by_cases h : k2 = k <;> simp [dictInsert, dictLookup, h, ih]

/-- Helper: inserting a different key does not change a lookup. -/
theorem dictLookup_dictInsert_other {α : Type} (d : List (String × α))
    (k0 k : String) (v : α) (hne : k ≠ k0) :
    dictLookup (dictInsert d k0 v) k = dictLookup d k := by
  have hne2 : k0 ≠ k := Ne.symm hne
  induction d with
  | nil => simp [dictInsert, dictLookup, hne2]
  | cons hd tl ih =>
    obtain ⟨k2, v2⟩ := hd
    by_cases h : k2 = k0
    · subst h
      simp [dictInsert, dictLookup, hne2]
    · simp [dictInsert, dictLookup, h, ih]

/-- Helper: the key set after splatting a dict is the union of key sets. -/
theorem dict_foldl_keys {α : Type} (m : List (String × α))
    (d : List (String × α)) (k : String) :
    (k ∈ dictKeys (m.foldl (fun d kv => dictInsert d kv.1 kv.2) d) ↔
      k ∈ dictKeys d ∨ k ∈ dictKeys m) := by
  induction m generalizing d with
  | nil => simp [dictKeys]
  | cons hd tl ih =>
    obtain ⟨k1, v1⟩ := hd
    simp only [List.foldl_cons]
    rw [ih, dictKeys_dictInsert]
    simp [dictKeys]
    tauto

/-- Helper: splatting entries with other keys leaves a lookup unchanged. -/
theorem dict_foldl_lookup_not_mem {α : Type} (m : List (String × α))
    (d : List (String × α)) (k : String) (h : ¬ k ∈ dictKeys m) :
    dictLookup (m.foldl (fun d kv => dictInsert d kv.1 kv.2) d) k =
      dictLookup d k := by
  induction m generalizing d with
  | nil => simp
  | cons hd tl ih =>
    obtain ⟨k1, v1⟩ := hd
    simp [dictKeys] at h
    simp only [List.foldl_cons]
    rw [ih _ (by simpa [dictKeys] using h.2)]
    exact dictLookup_dictInsert_other d k1 k v1 h.1

/-- Helper: after splatting a dict with distinct keys, a key of that dict
maps to the value the dict holds for it. -/
theorem dict_foldl_lookup_mem {α : Type} (m : List (String × α))
    (d : List (String × α)) (k : String) (v : α)
    (hnd : (dictKeys m).Nodup) (hmem : (k, v) ∈ m) :
    dictLookup (m.foldl (fun d kv => dictInsert d kv.1 kv.2) d) k = some v := by
  induction m generalizing d with
  | nil => simp at hmem
  | cons hd tl ih =>
    obtain ⟨k1, v1⟩ := hd
    simp only [dictKeys, List.map_cons, List.nodup_cons] at hnd
    rcases List.mem_cons.mp hmem with heq | htl
    · cases heq
      simp only [List.foldl_cons]
      rw [dict_foldl_lookup_not_mem tl _ k (by simpa [dictKeys] using hnd.1)]
      exact dictLookup_dictInsert_self d k v
    · simp only [List.foldl_cons]
      exact ih (dictInsert d k1 v1) hnd.2 htl

/-- C10: the payload key set is exactly "state" together with the
metadata keys; a metadata entry named "state" silently overrides the
state argument, and otherwise the payload maps "state" to the state
argument. -/
theorem payload_c10 (state : String) (m : List (String × PyVal))
    (hm : (dictKeys m).Nodup) :
    (∀ k, k ∈ dictKeys (build_payload (PyVal.s state) m) ↔
        (k = "state" ∨ k ∈ dictKeys m)) ∧
    (∀ v, ("state", v) ∈ m →
        dictLookup (build_payload (PyVal.s state) m) "state" = some v) ∧
    (¬ "state" ∈ dictKeys m →
        dictLookup (build_payload (PyVal.s state) m) "state" =
          some (PyVal.s state)) := by
  refine ⟨?_, ?_, ?_⟩
  · intro k
    rw [build_payload, dict_foldl_keys]
    simp [dictKeys]
  · intro v hv
    rw [build_payload]
    exact dict_foldl_lookup_mem m _ "state" v hm hv
  · intro h
    rw [build_payload, dict_foldl_lookup_not_mem m _ "state" h]
    simp [dictLookup]

theorem payload_c10_witness :
    dictLookup (build_payload (PyVal.s "on") [("home_network", PyVal.b true)])
      "state" = some (PyVal.s "on") :=
  (payload_c10 "on" [("home_network", PyVal.b true)] (by decide)).2.2 (by decide)

end WebcamLight
